import Mathlib

/-!
Shallow embedding of the ArcReactor pipeline core: the middleware chain executor
(src/proto/middleware.rs), the per-dispatch fault boundary RootService
(src/core/rootservice.rs) and the file-backed byte stream
(src/core/filestream.rs). Futures are embedded by the value they resolve to.
-/

namespace ArcReactor

/-- Reactor handle (tokio_core::reactor::Handle), abstracted to an identifier;
rootservice.rs only clones it and stores it in Request/Response. -/
structure Handle where
  id : Nat
deriving DecidableEq, Repr

/-- Remote socket address (std::net::SocketAddr), abstracted to ip and port. -/
structure SocketAddr where
  ip : Nat
  port : Nat
deriving DecidableEq, Repr

/-- Subset of hyper::StatusCode used by the code under src, plus a catch-all. -/
inductive StatusCode
  | Ok
  | Unauthorized
  | InternalServerError
  | other (code : Nat)
deriving DecidableEq, Repr

/-- hyper::Response: status, headers and body. hyper::Response::new() defaults to
status 200 Ok with empty headers and body. -/
structure HyperResponse where
  status : StatusCode
  headers : List (String × String)
  body : List UInt8
deriving DecidableEq, Repr

/-- hyper::Response::new(). -/
def HyperResponse.new : HyperResponse :=
  { status := StatusCode.Ok, headers := [], body := [] }

/-- hyper::Response::with_status. -/
def HyperResponse.with_status (r : HyperResponse) (s : StatusCode) : HyperResponse :=
  { r with status := s }

/-- Raw inbound hyper::Request, abstracted to an opaque payload. -/
structure HyperRequest where
  data : Nat
deriving DecidableEq, Repr

/-- hyper::Error, the transport error type of RootService::Future; its inhabitants
are irrelevant because rootservice.rs never produces one. -/
inductive HyperError
  | connection (msg : String)
deriving DecidableEq, Repr

/-- Modelled from the spec: the core Response object (status, headers, body of the
outbound response) carrying the per-dispatch reactor handle. Its declaring module
is absent from src; rootservice.rs constructs it with Response::new() and assigns
its handle field, and it converts into a hyper::Response. -/
structure Response where
  status : StatusCode
  headers : List (String × String)
  body : List UInt8
  handle : Option Handle
deriving DecidableEq, Repr

/-- Modelled from the spec: Response::new(), a fresh response with default status
and empty headers and body, and no handle attached yet. -/
def Response.new : Response :=
  { status := StatusCode.Ok, headers := [], body := [], handle := none }

/-- Modelled from the spec: res.into() at rootservice.rs lines 34-35, converting the
core Response to the outbound hyper::Response (the per-dispatch handle is not part
of the wire response). -/
def Response.toHyper (r : Response) : HyperResponse :=
  { status := r.status, headers := r.headers, body := r.body }

/-- Modelled from the spec: the core Request object, the converted inbound request
together with the per-dispatch metadata fields handle and remote that
rootservice.rs assigns before dispatch. -/
structure Request where
  raw : HyperRequest
  handle : Option Handle
  remote : Option SocketAddr
deriving DecidableEq, Repr

/-- Modelled from the spec: req.into() at rootservice.rs line 22, building the core
Request from the raw hyper::Request; no metadata is attached yet. -/
def Request.ofHyper (req : HyperRequest) : Request :=
  { raw := req, handle := none, remote := none }

/-! ## Middleware chain (src/proto/middleware.rs) -/

/-- MiddleWareFuture of middleware.rs line 6: a boxed future resolving either to
the item or to an error Response, embedded by its resolved value. -/
abbrev MiddleWareFuture (I : Type) :=
  Except Response I

/-- The MiddleWare trait (middleware.rs lines 103-105), reduced to its single
method call: a function from a payload to a MiddleWareFuture. -/
abbrev MiddleWare (T : Type) :=
  T → MiddleWareFuture T

/-- The impl of MiddleWare for Vec of boxed middlewares (middleware.rs lines
132-141 for Request and, textually identical, lines 148-157 for Response): a left
fold starting from Ok(payload).into_future(), each step combined with and_then,
which on the resolved values is Except.bind. -/
def MiddleWareVec.call {T : Type} (mws : List (MiddleWare T)) (t : T) : MiddleWareFuture T :=
  mws.foldl (fun acc mw => acc.bind mw) (Except.ok t)

/-- The Request instantiation of the Vec impl (middleware.rs lines 132-141). -/
def requestChain : List (MiddleWare Request) → Request → MiddleWareFuture Request :=
  MiddleWareVec.call

/-- The Response instantiation of the Vec impl (middleware.rs lines 148-157). -/
def responseChain : List (MiddleWare Response) → Response → MiddleWareFuture Response :=
  MiddleWareVec.call

/-- A pass-through middleware: returns Ok of its input unchanged. -/
def passThrough {T : Type} : MiddleWare T :=
  fun t => Except.ok t

/-! ## RootService (src/core/rootservice.rs) -/

/-- Resolution of the boxed future returned by the wrapped ArcHandler service, as
observed through the AssertUnwindSafe(..).catch_unwind() boundary at
rootservice.rs line 27: the future either resolves to Ok(Response) or
Err(Response), or panics with some payload (Box of Any, abstracted to a
message string). -/
inductive ServiceOutcome
  | completed (result : Except Response Response)
  | panicked (payload : String)
deriving Repr

/-- RootService (rootservice.rs lines 9-13); the ArcHandler field is abstracted to
the resolved outcome of the future that its call returns for a given request and
response. -/
structure RootService where
  remote_ip : SocketAddr
  service : Request → Response → ServiceOutcome
  handle : Handle

/-- RootService::call, rootservice.rs lines 21-43: convert the inbound request,
attach the reactor handle and the remote address, build a fresh Response carrying
the handle, run the wrapped service under catch_unwind, and normalize all three
outcomes to an Ok hyper::Response, mapping a caught panic to a fresh response
with status InternalServerError. -/
def RootService.call (self : RootService) (req : HyperRequest) : Except HyperError HyperResponse :=
  let request : Request :=
    { Request.ofHyper req with handle := some self.handle, remote := some self.remote_ip }
  let res : Response := { Response.new with handle := some self.handle }
  match self.service request res with
  | ServiceOutcome.completed (Except.ok r) => Except.ok r.toHyper
  | ServiceOutcome.completed (Except.error r) => Except.ok r.toHyper
  | ServiceOutcome.panicked _ =>
      Except.ok (HyperResponse.new.with_status StatusCode.InternalServerError)

/-- The Request that RootService::call hands to the wrapped service: the converted
inbound request with the reactor handle and remote address attached
(rootservice.rs lines 22-24). -/
def RootService.builtRequest (self : RootService) (req : HyperRequest) : Request :=
  { Request.ofHyper req with handle := some self.handle, remote := some self.remote_ip }

/-- The Response that RootService::call hands to the wrapped service: a fresh
Response with the reactor handle attached (rootservice.rs lines 25-26). -/
def RootService.builtResponse (self : RootService) : Response :=
  { Response.new with handle := some self.handle }

/-- The then-closure of rootservice.rs lines 30-40, normalizing the caught outcome
of the service future to the transport result. -/
def RootService.normalize (outcome : ServiceOutcome) : Except HyperError HyperResponse :=
  match outcome with
  | ServiceOutcome.completed (Except.ok r) => Except.ok r.toHyper
  | ServiceOutcome.completed (Except.error r) => Except.ok r.toHyper
  | ServiceOutcome.panicked _ =>
      Except.ok (HyperResponse.new.with_status StatusCode.InternalServerError)

/-! ## FileStream (src/core/filestream.rs) -/

/-- One chunk of the body stream (hyper::Chunk), a sequence of bytes. -/
abbrev Chunk :=
  List UInt8

/-- Readiness of a poll (futures::Async). -/
inductive Async (α : Type)
  | notReady
  | ready (a : α)
deriving DecidableEq, Repr

/-- tokio::io::Error, abstracted to a code. -/
structure IOError where
  code : Nat
deriving DecidableEq, Repr

/-- Behaviour of tokio::fs::File::poll_read on a buffer: given the file state and
the buffer contents, it returns the number of bytes read together with the
updated buffer and file state, or not-ready, or an I/O error. -/
abbrev PollRead (α : Type) :=
  α → List UInt8 → Except IOError (Async (Nat × List UInt8 × α))

/-- FileStream (filestream.rs lines 12-16): a file, a read buffer (BytesMut,
embedded by its initialized contents) and the sink flush flag. -/
structure FileStream (α : Type) where
  file : α
  buf : List UInt8
  flushed : Bool
deriving DecidableEq, Repr

/-- FileStream::new (filestream.rs lines 19-25): BytesMut::with_capacity(0) is a
buffer whose initialized length is zero, so the buffer contents are empty. -/
def FileStream.new {α : Type} (file : α) : FileStream α :=
  { file := file, buf := [], flushed := true }

/-- Stream::poll for FileStream (filestream.rs lines 32-39): try_ready! on
poll_read propagates an error or not-ready; a positive byte count yields
Ready(Some(chunk)) where the chunk is the whole buffer taken (leaving the buffer
empty); a zero byte count yields Ready(None). -/
def FileStream.poll {α : Type} (pollRead : PollRead α) (fs : FileStream α) :
    Except IOError (Async (Option Chunk)) × FileStream α :=
  match pollRead fs.file fs.buf with
  | Except.error e => (Except.error e, fs)
  | Except.ok Async.notReady => (Except.ok Async.notReady, fs)
  | Except.ok (Async.ready (n, buf, file)) =>
      if n > 0 then
        (Except.ok (Async.ready (some buf)), { fs with file := file, buf := [] })
      else
        (Except.ok (Async.ready none), { fs with file := file, buf := buf })

/-- A regular file as seen by tokio::fs::File: its contents and the read cursor. -/
structure TokioFile where
  contents : List UInt8
  pos : Nat
deriving DecidableEq, Repr

/-- poll_read of a ready regular file into a fixed-length buffer slice: it reads
min(buffer length, bytes remaining after the cursor) bytes, overwriting the front
of the buffer and advancing the cursor; reading into a zero-length slice reads
zero bytes. -/
def TokioFile.poll_read (f : TokioFile) (buf : List UInt8) :
    Except IOError (Async (Nat × List UInt8 × TokioFile)) :=
  let n := min buf.length (f.contents.length - f.pos)
  Except.ok (Async.ready (n, ((f.contents.drop f.pos).take n) ++ buf.drop n,
    { f with pos := f.pos + n }))

/-- Driver that polls a FileStream over a regular file until it signals
end-of-data, collecting the produced chunks; fuel bounds the number of polls and
the driver returns none if the fuel runs out. -/
def FileStream.run (fuel : Nat) (fs : FileStream TokioFile) : Option (List Chunk) :=
  match fuel with
  | 0 => none
  | Nat.succ fuel =>
      match FileStream.poll TokioFile.poll_read fs with
      | (Except.ok (Async.ready none), _) => some []
      | (Except.ok (Async.ready (some c)), next) =>
          match FileStream.run fuel next with
          | some cs => some (c :: cs)
          | none => none
      | (_, _) => none

/-! ## Helper lemmas on the chain fold -/

/-- Folding and_then over a resolved error leaves the error unchanged: no further
middleware in the fold is applied. -/
theorem foldl_bind_error {T : Type} (mws : List (MiddleWare T)) (r : Response) :
    List.foldl (fun acc mw => acc.bind mw) (Except.error r) mws = Except.error r := by
  induction mws with
  | nil => rfl
  | cons mw mws ih => simpa using ih

/-- Factoring the fold through an arbitrary resolved accumulator. -/
theorem foldl_bind {T : Type} (mws : List (MiddleWare T)) (e : MiddleWareFuture T) :
    List.foldl (fun acc mw => acc.bind mw) e mws
      = e.bind (fun t => MiddleWareVec.call mws t) := by
  induction mws generalizing e with
  | nil => cases e <;> rfl
  | cons mw mws ih =>
      cases e with
      | error r =>
          simpa [Except.bind] using foldl_bind_error mws r
      | ok t =>
          show List.foldl _ ((Except.ok t).bind mw) mws = _
          rw [show (Except.ok t : MiddleWareFuture T).bind mw = mw t from rfl, ih]
          show (mw t).bind _ = MiddleWareVec.call (mw :: mws) t
          unfold MiddleWareVec.call
          show (mw t).bind _ = List.foldl _ ((Except.ok t).bind mw) mws
          rw [show (Except.ok t : MiddleWareFuture T).bind mw = mw t from rfl, ih]
          rfl

/-- Unfolding the chain at a cons: the head middleware receives the payload and
the tail receives the payload produced by its Ok. -/
theorem call_cons {T : Type} (mw : MiddleWare T) (mws : List (MiddleWare T)) (t : T) :
    MiddleWareVec.call (mw :: mws) t = (mw t).bind (fun u => MiddleWareVec.call mws u) := by
  unfold MiddleWareVec.call
  show List.foldl _ ((Except.ok t).bind mw) mws = _
  rw [show (Except.ok t : MiddleWareFuture T).bind mw = mw t from rfl, foldl_bind]
  rfl

/-- Splitting the chain at an append. -/
theorem call_append {T : Type} (xs ys : List (MiddleWare T)) (t : T) :
    MiddleWareVec.call (xs ++ ys) t
      = (MiddleWareVec.call xs t).bind (fun u => MiddleWareVec.call ys u) := by
  unfold MiddleWareVec.call
  rw [List.foldl_append]
  exact foldl_bind ys _

/-- Unfolding RootService::call into the attached request and response and the
outcome normalization. -/
theorem rootservice_call_eq (self : RootService) (req : HyperRequest) :
    RootService.call self req
      = RootService.normalize
          (self.service (RootService.builtRequest self req) (RootService.builtResponse self)) :=
  rfl

/-! ## Claims -/

/-- Claim C1: for every dispatch, if the wrapped service future panics,
RootService::call resolves to a Response with status InternalServerError; the
panic never propagates to the transport layer. -/
theorem rootservice_panic_yields_internal_server_error
    (self : RootService) (req : HyperRequest) (p : String)
    (h : self.service (RootService.builtRequest self req) (RootService.builtResponse self)
           = ServiceOutcome.panicked p) :
    RootService.call self req
      = Except.ok (HyperResponse.new.with_status StatusCode.InternalServerError) := by
  rw [rootservice_call_eq, h]
  rfl

/-- Witness for claim C1 at a concrete always-panicking service. -/
theorem rootservice_panic_yields_internal_server_error_witness :
    RootService.call
        { remote_ip := { ip := 127, port := 80 },
          service := fun _ _ => ServiceOutcome.panicked "boom",
          handle := { id := 1 } }
        { data := 5 }
      = Except.ok (HyperResponse.new.with_status StatusCode.InternalServerError) :=
  rootservice_panic_yields_internal_server_error _ _ "boom" rfl

/-- Claim C2: the chain evaluates steps strictly in list order, feeding each step
the payload produced by the previous Ok; when a middleware returns Err(Response)
the chain's result is that error unchanged, and the steps after it never
contribute: the result equals that of the chain with them removed. -/
theorem chain_short_circuits {T : Type} (pre post : List (MiddleWare T))
    (mw : MiddleWare T) (t u : T) (r : Response)
    (hpre : MiddleWareVec.call pre t = Except.ok u)
    (hmw : mw u = Except.error r) :
    MiddleWareVec.call (pre ++ mw :: post) t = Except.error r
      ∧ MiddleWareVec.call (pre ++ mw :: post) t = MiddleWareVec.call (pre ++ [mw]) t := by
  have key : ∀ rest : List (MiddleWare T),
      MiddleWareVec.call (pre ++ mw :: rest) t = Except.error r := by
    intro rest
    rw [call_append, hpre]
    show MiddleWareVec.call (mw :: rest) u = _
    rw [call_cons, hmw]
    rfl
  exact ⟨key post, by rw [key post, key []]⟩

/-- Witness for claim C2 on a concrete three-step chain over Nat payloads. -/
theorem chain_short_circuits_witness :
    MiddleWareVec.call
        ([fun n : Nat => Except.ok (n + 1)]
          ++ (fun _ : Nat =>
                Except.error { Response.new with status := StatusCode.Unauthorized })
            :: [fun n : Nat => Except.ok (n * 2)]) 0
      = Except.error { Response.new with status := StatusCode.Unauthorized }
      ∧ MiddleWareVec.call
          ([fun n : Nat => Except.ok (n + 1)]
            ++ (fun _ : Nat =>
                  Except.error { Response.new with status := StatusCode.Unauthorized })
              :: [fun n : Nat => Except.ok (n * 2)]) 0
        = MiddleWareVec.call
            ([fun n : Nat => Except.ok (n + 1)]
              ++ [fun _ : Nat =>
                    Except.error { Response.new with status := StatusCode.Unauthorized }]) 0 :=
  chain_short_circuits _ _ _ 0 1 _ rfl rfl

/-- Claim C3: for every inbound request, RootService::call resolves to exactly one
Ok hyper::Response and never to the transport error type. -/
theorem rootservice_always_one_response (self : RootService) (req : HyperRequest) :
    ∃ r : HyperResponse, RootService.call self req = Except.ok r := by
  rw [rootservice_call_eq]
  cases hs : self.service (RootService.builtRequest self req) (RootService.builtResponse self) with
  | completed result =>
      cases result with
      | ok r => exact ⟨r.toHyper, rfl⟩
      | error r => exact ⟨r.toHyper, rfl⟩
  | panicked p =>
      exact ⟨HyperResponse.new.with_status StatusCode.InternalServerError, rfl⟩

/-- Claim C4: the empty middleware vector is the identity transform, for any
payload type and in particular at Request and at Response. -/
theorem empty_chain_identity (T : Type) (t : T) (req : Request) (res : Response) :
    MiddleWareVec.call ([] : List (MiddleWare T)) t = Except.ok t
      ∧ requestChain [] req = Except.ok req
      ∧ responseChain [] res = Except.ok res :=
  ⟨rfl, rfl, rfl⟩

/-- Claim C5: a chain of M pass-through middlewares yields Ok of the unchanged
payload, so following it with the handler equals invoking the handler directly
with no chain. -/
theorem passthrough_chain_eq_handler {T R : Type} (M : Nat) (t : T)
    (handler : T → Except Response R) :
    MiddleWareVec.call (List.replicate M (passThrough : MiddleWare T)) t = Except.ok t
      ∧ (MiddleWareVec.call (List.replicate M (passThrough : MiddleWare T)) t).bind handler
          = handler t := by
  have h : ∀ (m : Nat) (u : T),
      MiddleWareVec.call (List.replicate m (passThrough : MiddleWare T)) u = Except.ok u := by
    intro m
    induction m with
    | zero => intro u; rfl
    | succ k ih =>
        intro u
        rw [List.replicate_succ, call_cons]
        simpa [passThrough, Except.bind] using ih u
  exact ⟨h M t, by rw [h M t]; rfl⟩

/-- Claim C6: before the wrapped service is invoked, the dispatch context is
attached: the request handed to the service carries the connection's remote
address and the reactor handle (and is otherwise the converted inbound request),
the fresh response handed to it carries the same handle, and RootService::call is
exactly the normalization of the service outcome at these arguments. -/
theorem rootservice_attaches_dispatch_context (self : RootService) (req : HyperRequest) :
    (RootService.builtRequest self req).remote = some self.remote_ip
      ∧ (RootService.builtRequest self req).handle = some self.handle
      ∧ (RootService.builtRequest self req).raw = req
      ∧ (RootService.builtResponse self).handle = some self.handle
      ∧ RootService.call self req
          = RootService.normalize
              (self.service (RootService.builtRequest self req) (RootService.builtResponse self)) :=
  ⟨rfl, rfl, rfl, rfl, rfl⟩

/-- Claim C8: a poll of the FileStream surfaces an underlying I/O error as Err,
yields Ready(None) exactly on a zero-byte read and Ready(Some(chunk)) on a
positive read, and the stream over a regular file as built by FileStream::new
produces a finite sequence of chunks: the driver terminates with end-of-data. -/
theorem filestream_poll_spec (α : Type) (e : IOError) (k : Nat) (buf2 : List UInt8)
    (f2 : α) (fs : FileStream α) (f : TokioFile) :
    (FileStream.poll (fun _ _ => Except.error e) fs).1 = Except.error e
      ∧ (FileStream.poll (fun _ _ => Except.ok (Async.ready (0, buf2, f2))) fs).1
          = Except.ok (Async.ready none)
      ∧ (FileStream.poll (fun _ _ => Except.ok (Async.ready (k + 1, buf2, f2))) fs).1
          = Except.ok (Async.ready (some buf2))
      ∧ FileStream.run 1 (FileStream.new f) = some [] := by
  refine ⟨rfl, rfl, ?_, ?_⟩
  · simp [FileStream.poll]
  · simp [FileStream.run, FileStream.poll, TokioFile.poll_read, FileStream.new]

/-- Claim C9: a FileStream built by FileStream::new starts with an empty read
buffer, so the first read returns zero bytes and the first poll yields
end-of-data, regardless of the file's contents. -/
theorem filestream_new_immediate_eof (f : TokioFile) :
    (FileStream.new f).buf = []
      ∧ TokioFile.poll_read (FileStream.new f).file (FileStream.new f).buf
          = Except.ok (Async.ready (0, [], f))
      ∧ (FileStream.poll TokioFile.poll_read (FileStream.new f)).1
          = Except.ok (Async.ready none) := by
  refine ⟨rfl, ?_, ?_⟩
  · simp [TokioFile.poll_read, FileStream.new]
  · simp [FileStream.poll, TokioFile.poll_read, FileStream.new]

/-- Claim C10: the caught-panic response is fixed: a fresh response with status
InternalServerError and default empty headers and body, equal across different
panic payloads and different requests; the panic message is discarded. -/
theorem panic_response_fixed (s1 s2 : RootService) (q1 q2 : HyperRequest)
    (p1 p2 : String)
    (h1 : s1.service (RootService.builtRequest s1 q1) (RootService.builtResponse s1)
            = ServiceOutcome.panicked p1)
    (h2 : s2.service (RootService.builtRequest s2 q2) (RootService.builtResponse s2)
            = ServiceOutcome.panicked p2) :
    RootService.call s1 q1 = RootService.call s2 q2
      ∧ RootService.call s1 q1
          = Except.ok { status := StatusCode.InternalServerError, headers := [], body := [] } := by
  rw [rootservice_call_eq s1 q1, rootservice_call_eq s2 q2, h1, h2]
  exact ⟨rfl, rfl⟩

/-- Witness for claim C10 at two concrete panicking dispatches that differ in
panic payload, request, remote address and handle. -/
theorem panic_response_fixed_witness :
    RootService.call
        { remote_ip := { ip := 1, port := 1 },
          service := fun _ _ => ServiceOutcome.panicked "boom",
          handle := { id := 1 } } { data := 1 }
      = RootService.call
          { remote_ip := { ip := 2, port := 2 },
            service := fun _ _ => ServiceOutcome.panicked "crash",
            handle := { id := 2 } } { data := 2 }
      ∧ RootService.call
          { remote_ip := { ip := 1, port := 1 },
            service := fun _ _ => ServiceOutcome.panicked "boom",
            handle := { id := 1 } } { data := 1 }
        = Except.ok { status := StatusCode.InternalServerError, headers := [], body := [] } :=
  panic_response_fixed _ _ _ _ "boom" "crash" rfl rfl

end ArcReactor
